import Mathlib

/-!
Verification development for the CryptoMomo developer SDK's session client
(`src/core/client.ts`, together with `src/constants/index.ts` and
`src/types/index.ts`).  The client's pure logic (header construction, error
mapping, envelope unwrapping, query-string building, token state transitions)
is embedded shallowly as executable Lean functions; the network is modelled by
an explicit oracle of fetch outcomes, and the JavaScript event loop relevant to
the single-flight refresh is modelled as an interleaving of the atomic
synchronous sections of `refreshSessionToken`.
-/

namespace CryptoMomo

/-! ## Constants (from `src/constants/index.ts`) -/

/-- Source `API_CONFIG.BASE_URL`. -/
def API_CONFIG.BASE_URL : String := "http://localhost:3000/api/v1"

/-- Source `API_CONFIG.PRODUCTION_URL`. -/
def API_CONFIG.PRODUCTION_URL : String := "https://api.cryptomomo.africa/api/v1"

/-- Source `ENDPOINTS.CONNECTIONS.REQUEST`. -/
def ENDPOINTS.CONNECTIONS.REQUEST : String := "/connections/request"

/-- Source `ENDPOINTS.CONNECTIONS.REGISTER`. -/
def ENDPOINTS.CONNECTIONS.REGISTER : String := "/connections/register"

/-- Source `ENDPOINTS.CONNECTIONS.VERIFY` . -/
def ENDPOINTS.CONNECTIONS.VERIFY : String := "/connections/verify"

/-- Source `ENDPOINTS.CONNECTIONS.REFRESH` . -/
def ENDPOINTS.CONNECTIONS.REFRESH : String := "/connections/refresh"

/-- Source `ENDPOINTS.CONNECTIONS.CHECK_STATUS`. -/
def ENDPOINTS.CONNECTIONS.CHECK_STATUS : String := "/connections/check/status"

/-- Source `ENDPOINTS.TRANSACTIONS.SEND`. -/
def ENDPOINTS.TRANSACTIONS.SEND : String := "/transactions/send"

/-- Source `ENDPOINTS.TRANSACTIONS.GASLESS`. -/
def ENDPOINTS.TRANSACTIONS.GASLESS : String := "/transactions/gasless"

/-- Source `ENDPOINTS.TRANSACTIONS.CONFIRM`. -/
def ENDPOINTS.TRANSACTIONS.CONFIRM : String := "/transactions/confirm"

/-- Source `ENDPOINTS.TRANSACTIONS.HISTORY`. -/
def ENDPOINTS.TRANSACTIONS.HISTORY : String := "/transactions/history"

/-- Source `ENDPOINTS.TRANSACTIONS.BALANCE`. -/
def ENDPOINTS.TRANSACTIONS.BALANCE : String := "/transactions/balance"

/-- Source `ERROR_MESSAGES.NETWORK_ERROR`. -/
def ERROR_MESSAGES.NETWORK_ERROR : String :=
  "Network connection failed. Please check your internet connection."

/-- Source `ERROR_MESSAGES.INVALID_OTP`. -/
def ERROR_MESSAGES.INVALID_OTP : String := "Invalid or expired OTP."

/-- Source `ERROR_MESSAGES.CONNECTION_NOT_FOUND`. -/
def ERROR_MESSAGES.CONNECTION_NOT_FOUND : String := "Connection not found."

/-- Source `ERROR_MESSAGES.IP_NOT_WHITELISTED`. -/
def ERROR_MESSAGES.IP_NOT_WHITELISTED : String :=
  "Your IP address is not whitelisted for this app."

/-- Source `AUTH_HEADERS.BEARER`. -/
def AUTH_HEADERS.BEARER : String := "Authorization"

/-- Source `AUTH_HEADERS.APP_TOKEN` . -/
def AUTH_HEADERS.APP_TOKEN : String := "X-App-Token"

/-! ## JavaScript value semantics helpers

The client's control flow repeatedly uses JavaScript truthiness on
string-or-`undefined` values (`if (this.sessionToken)`, `a || b`,
`msg.includes('expired')`).  These helpers embed those semantics exactly:
`undefined` and the empty string are falsy, every other string is truthy. -/

/-- JS truthiness of a string-or-`undefined` value: `undefined` and `""` are
falsy. -/
def jsTruthy : Option String → Bool
  | some s => !(s == "")
  | none => false

/-- JS `a || b` on a string-or-`undefined` value `a` with string fallback
`b`. -/
def jsOr (a : Option String) (b : String) : String :=
  match a with
  | some s => if s == "" then b else s
  | none => b

/-- Source `pre` is a prefix of `l`, on character lists. -/
def charsPrefix : List Char → List Char → Bool
  | [], _ => true
  | _ :: _, [] => false
  | a :: as, b :: bs => a == b && charsPrefix as bs

/-- Source `sub` occurs as a contiguous run somewhere in `l`. -/
def charsIncludes (sub : List Char) : List Char → Bool
  | [] => charsPrefix sub []
  | c :: rest => charsPrefix sub (c :: rest) || charsIncludes sub rest

/-- JS `s.includes(sub)`: `sub` occurs as a substring of `s`. -/
def strIncludes (s sub : String) : Bool := charsIncludes sub.toList s.toList

/-! ## Error taxonomy (from `src/types/index.ts`, lines 203–237)

The source uses a class hierarchy `CryptoMomoError` ⊃ `ValidationError`,
`AuthenticationError`, `NetworkError`.  `instanceof` dispatch is embedded as a
`kind` tag: the three subclasses each get their own kind and an instance of
the base class built directly with `new CryptoMomoError(...)` gets `generic`.
-/

/-- Which constructor of the error hierarchy produced the error: the three
subclasses, or the base `CryptoMomoError` class itself. -/
inductive ErrorKind where
  | validation
  | authentication
  | network
  | generic
deriving DecidableEq, Repr

/-- The parsed JSON body handed to `handleErrorResponse` (line 154):
`errorData.error?.message`, `errorData.error?.code` and `errorData.message`,
each possibly absent.  A body that failed to parse (`.catch(() => ({}))`) is
the record with all three fields absent. -/
structure ErrBody where
  errMessage : Option String := none
  errCode : Option String := none
  message : Option String := none
deriving DecidableEq, Repr

/-- The `details` payload attached to an error: absent, the parsed error body
(`handleErrorResponse` passes `errorData`), or the `{ error: errorMessage }`
wrapper built in `makeRequest`'s catch-all (line 146). -/
inductive ErrDetails where
  | noneD
  | body (b : ErrBody)
  | wrapped (m : String)
deriving DecidableEq, Repr

/-- Source `class CryptoMomoError extends Error` (types line 204): message, code,
HTTP-derived status code and optional details, plus the `kind` tag standing
for the dynamic class. -/
structure CryptoMomoError where
  kind : ErrorKind
  message : String
  code : String
  statusCode : Nat
  details : ErrDetails := .noneD
deriving DecidableEq, Repr

/-- Source `new CryptoMomoError(message, code, statusCode = 400, details?)`. -/
def mkCryptoMomoError (message code : String) (statusCode : Nat := 400)
    (details : ErrDetails := .noneD) : CryptoMomoError :=
  ⟨.generic, message, code, statusCode, details⟩

/-- Source `new ValidationError(message, details?)` — code `VALIDATION_ERROR`,
status 400. -/
def ValidationError (message : String) (details : ErrDetails := .noneD) :
    CryptoMomoError :=
  ⟨.validation, message, "VALIDATION_ERROR", 400, details⟩

/-- Source `new AuthenticationError(message, details?)` — code
`AUTHENTICATION_ERROR`, status 401. -/
def AuthenticationError (message : String := "Authentication failed")
    (details : ErrDetails := .noneD) : CryptoMomoError :=
  ⟨.authentication, message, "AUTHENTICATION_ERROR", 401, details⟩

/-- Source `new NetworkError(message, details?)` — code `NETWORK_ERROR`,
status 500. -/
def NetworkError (message : String := "Network request failed")
    (details : ErrDetails := .noneD) : CryptoMomoError :=
  ⟨.network, message, "NETWORK_ERROR", 500, details⟩

/-- A value thrown by JavaScript code: either one of the SDK's typed
`CryptoMomoError`s, or an untyped runtime error (e.g. the `TypeError` a failed
`fetch` rejects with, or a `SyntaxError` from `response.json()`), carried with
its message. -/
inductive JsError where
  | typed (e : CryptoMomoError)
  | untyped (msg : String)
deriving DecidableEq, Repr

/-! ## Response envelope and payload types (from `src/types/index.ts`) -/

/-- Source `interface ApiResponse<T>` (types line 190): `{success, data?, error?,
message?}`.  The `meta` field is carried by no claim and no client code path,
so it is not embedded. -/
structure ApiResponse (T : Type) where
  success : Bool
  data : Option T := none
  error : Option String := none
  message : Option String := none
deriving DecidableEq, Repr

/-- Source `ConnectionInfo` (types `ConnectionSchema`, line 80): the fields the
client logic reads, plus identifier/status/phone so theorems can speak about
concrete connections.  Timestamps, OTP counters and metadata are payload the
client never inspects and are not embedded. -/
structure ConnectionInfo where
  id : String
  dappId : String := ""
  phoneNumber : String := ""
  status : String := "pending"
  sessionToken : Option String := none
  refreshToken : Option String := none
deriving DecidableEq, Repr

/-- Source `interface TransactionResponse` (types line 125): the fields theorems
need; the remaining execution-detail fields are payload the client never
inspects. -/
structure TransactionResponse where
  id : String
  confirmationCode : String := ""
  status : String := "awaiting_confirmation"
  connectionId : String := ""
deriving DecidableEq, Repr

/-! ## Configuration and client state (client lines 25–44) -/

/-- Source `environment?: 'development' | 'production'` in `CryptoMomoConfig`. -/
inductive Environment where
  | development
  | production
deriving DecidableEq, Repr

/-- Source `interface CryptoMomoConfig` (types line 177).  `appToken` is typed
`string` in TS but a JS caller can omit it, which the constructor's
`!config.appToken` check anticipates, so it is embedded as an optional
string. -/
structure CryptoMomoConfig where
  appToken : Option String
  baseUrl : Option String := none
  environment : Option Environment := none
  timeout : Option Nat := none
  retryAttempts : Option Nat := none
deriving DecidableEq, Repr

/-- The mutable private state of a `CryptoMomoClient` instance: `appToken`
(from the held config), resolved `baseUrl`, and the optional `sessionToken`
and `refreshToken` slots (client lines 26–29).  The `refreshPromise` slot is
always empty between event-loop turns; it appears in the event-loop model
below (`GState`), where concurrent callers can observe it set. -/
structure ClientState where
  appToken : String
  baseUrl : String := API_CONFIG.BASE_URL
  sessionToken : Option String := none
  refreshToken : Option String := none
deriving DecidableEq, Repr

/-- Base-URL resolution in the constructor (lines 34–36):
`config.baseUrl || (config.environment === 'production' ? PRODUCTION_URL :
BASE_URL)`. -/
def resolvedBaseUrl (config : CryptoMomoConfig) : String :=
  jsOr config.baseUrl
    (if config.environment == some .production then API_CONFIG.PRODUCTION_URL
     else API_CONFIG.BASE_URL)

/-- The constructor (lines 32–44): stores the config, resolves the base URL,
then throws `ValidationError` if `!config.appToken` (missing or empty).  It
performs no network call — note the result type consumes no fetch oracle. -/
def mkClient (config : CryptoMomoConfig) : Except CryptoMomoError ClientState :=
  let baseUrl := resolvedBaseUrl config
  if jsTruthy config.appToken then
    .ok { appToken := config.appToken.getD "", baseUrl := baseUrl }
  else
    .error (ValidationError
      "App token required: provide appToken from your CryptoMomo dashboard.")

/-! ## HTTP error mapping (client lines 153–172) -/

/-- Source `handleErrorResponse` (lines 153–172): maps a non-ok HTTP status and the
parsed (or empty, when parsing failed) error body to the thrown error.
`errorMessage = errorData.error?.message || errorData.message ||
ERROR_MESSAGES.NETWORK_ERROR`; `errorCode = errorData.error?.code ||
'UNKNOWN_ERROR'`. -/
def handleErrorResponse (status : Nat) (body : ErrBody) : CryptoMomoError :=
  let errorMessage := jsOr body.errMessage (jsOr body.message ERROR_MESSAGES.NETWORK_ERROR)
  let errorCode := jsOr body.errCode "UNKNOWN_ERROR"
  match status with
  | 401 => AuthenticationError errorMessage (.body body)
  | 400 => ValidationError errorMessage (.body body)
  | 403 => AuthenticationError ERROR_MESSAGES.IP_NOT_WHITELISTED (.body body)
  | 429 => mkCryptoMomoError errorMessage "RATE_LIMITED" status (.body body)
  | _ => mkCryptoMomoError errorMessage errorCode status (.body body)

/-! ## The network oracle

`fetch` and `response.json()` are external effects; each call site's possible
outcomes are supplied by an oracle value.  For a request issued by
`makeRequest` the outcome is one of: an ok response with a parsed envelope, an
ok response whose body fails to parse (`response.json()` throws an untyped
`SyntaxError`), a non-ok response with status and (already `catch`-defaulted)
error body, or `fetch` itself rejecting with an untyped error (network
failure / `AbortSignal` timeout). -/

/-- Outcome of one `fetch` + `response.json()` round trip in `makeRequest`
(lines 121–127). -/
inductive FetchOutcome (T : Type) where
  | ok (envelope : ApiResponse T)
  | okBadJson (msg : String)
  | httpErr (status : Nat) (body : ErrBody)
  | netFail (msg : String)
deriving DecidableEq, Repr

/-- Source `data.data` of a successful refresh response (lines 77–79):
`{sessionToken, refreshToken}`, each possibly absent in the JSON. -/
structure RefreshData where
  sessionToken : Option String := none
  refreshToken : Option String := none
deriving DecidableEq, Repr

/-- The parsed envelope of the refresh endpoint's ok response. -/
structure RefreshEnvelope where
  success : Bool
  data : Option RefreshData := none
deriving DecidableEq, Repr

/-- Outcome of the refresh round trip in `refreshSessionToken`
(lines 63–75). -/
inductive RefreshOutcome where
  | ok (envelope : RefreshEnvelope)
  | httpErr (status : Nat)
  | jsonFail (msg : String)
  | netFail (msg : String)
deriving DecidableEq, Repr

/-- The oracle consumed by one top-level `makeRequest` call: the outcome of
the original fetch, of the refresh fetch (if one happens), and of the retried
fetch (if one happens). -/
structure World (T : Type) where
  first : FetchOutcome T
  refreshO : RefreshOutcome
  retry : FetchOutcome T
deriving DecidableEq, Repr

/-- The `try` block of `makeRequest` up to `return data` (lines 120–128): an
ok response yields its envelope; a non-ok response throws what
`handleErrorResponse` builds; `fetch`/`json()` failures throw untyped. -/
def attempt {T : Type} (o : FetchOutcome T) : Except JsError (ApiResponse T) :=
  match o with
  | .ok env => .ok env
  | .okBadJson m => .error (.untyped m)
  | .httpErr status body => .error (.typed (handleErrorResponse status body))
  | .netFail m => .error (.untyped m)

/-! ## Session refresh (client lines 49–89) -/

/-- The body of the async IIFE in `refreshSessionToken` from the point the
refresh fetch settles (lines 71–82): how one refresh outcome maps to a result
and to the new `(sessionToken, refreshToken)` pair.  A non-ok status throws
`AuthenticationError('Failed to refresh session')`; a parse failure or fetch
rejection throws untyped; an ok envelope with `data.success && data.data`
assigns both tokens from `data.data` (token rotation), and otherwise throws
`AuthenticationError('Invalid refresh response')`.  Tokens are only assigned
in the fully successful branch. -/
def refreshSettle (sess refr : Option String) (o : RefreshOutcome) :
    Except JsError Unit × Option String × Option String :=
  match o with
  | .netFail m => (.error (.untyped m), sess, refr)
  | .httpErr _ => (.error (.typed (AuthenticationError "Failed to refresh session")), sess, refr)
  | .jsonFail m => (.error (.untyped m), sess, refr)
  | .ok env =>
    match env.data with
    | some d => if env.success then (.ok (), d.sessionToken, d.refreshToken)
                else (.error (.typed (AuthenticationError "Invalid refresh response")), sess, refr)
    | none => (.error (.typed (AuthenticationError "Invalid refresh response")), sess, refr)

/-- A sequential (single-caller) run of `refreshSessionToken` (lines 49–89),
from call to settlement of the promise it creates.  Between event-loop turns
`this.refreshPromise` is empty, so the line-51 short-circuit does not fire in
a sequential run (the event-loop model `GState` below covers it); the run
starts at the `!this.refreshToken` check of line 55, which throws
`AuthenticationError('No refresh token available')` on a falsy token, and
otherwise performs the fetch whose outcome `o` supplies and settles as in
`refreshSettle`.  The `finally` of line 83 clears the promise slot, so the
slot is again empty in the post-state. -/
def refreshSessionToken (s : ClientState) (o : RefreshOutcome) :
    Except JsError Unit × ClientState :=
  if jsTruthy s.refreshToken then
    let (r, sess, refr) := refreshSettle s.sessionToken s.refreshToken o
    (r, { s with sessionToken := sess, refreshToken := refr })
  else
    (.error (.typed (AuthenticationError "No refresh token available")), s)

/-- Public `refreshSession` (lines 529–531): delegates to
`refreshSessionToken`. -/
def refreshSession (s : ClientState) (o : RefreshOutcome) :
    Except JsError Unit × ClientState :=
  refreshSessionToken s o

/-! ## Header construction (client lines 102–112) -/

/-- Headers as a finite map from header name to value; JS object literals
have unique keys with later assignments overriding. -/
def Headers : Type := String → Option String

/-- Fold caller-supplied extra headers (`...options.headers`) over a base
header object, later entries overriding. -/
def applyExtra (base : Headers) (extra : List (String × String)) : Headers :=
  extra.foldl (fun h kv k => if k == kv.1 then some kv.2 else h k) base

/-- Header construction in `makeRequest` (lines 102–112): start from
`{'Content-Type': 'application/json'}`, spread `options.headers`, then set
`Authorization: Bearer <sessionToken>` when the session token is truthy and
`X-App-Token: <appToken>` otherwise.  Every call site inside the client
passes no `headers` in `options`, so each dispatched request has
`extra = []`. -/
def buildHeaders (s : ClientState) (extra : List (String × String)) : Headers :=
  let base : Headers :=
    applyExtra (fun k => if k == "Content-Type" then some "application/json" else none) extra
  if jsTruthy s.sessionToken then
    fun k => if k == AUTH_HEADERS.BEARER
             then some ("Bearer " ++ s.sessionToken.getD "")
             else base k
  else
    fun k => if k == AUTH_HEADERS.APP_TOKEN then some s.appToken else base k

/-! ## Request dispatch (client lines 95–148) -/

/-- Observable network actions of one `makeRequest` run: a request dispatched
to `endpoint` with the session token in force when its headers were built, or
the refresh endpoint round trip started inside `refreshSessionToken`. -/
inductive Action where
  | request (endpoint : String) (sessionToken : Option String)
  | refreshCall
deriving DecidableEq, Repr

/-- Source `makeRequest` (lines 95–148).  The `try` block is `attempt w.first`.  In
the `catch`: when the error is an `AuthenticationError` whose message
contains `'expired'`, a truthy refresh token is held and `retryOnAuth` is
set, the client awaits `refreshSessionToken` (consuming `w.refreshO`) and, on
its success, re-enters `makeRequest` with `retryOnAuth = false`, the retried
fetch consuming `w.retry`; a failure thrown by the refresh propagates as-is
from inside the `catch`.  Otherwise a typed error is rethrown unchanged and
anything untyped is wrapped into
`NetworkError(ERROR_MESSAGES.NETWORK_ERROR, {error: message})`.  The action
list records each fetch issued and the session token its headers used. -/
def makeRequest {T : Type} (endpoint : String) (s : ClientState) (w : World T)
    (retryOnAuth : Bool) :
    Except JsError (ApiResponse T) × ClientState × List Action :=
  let acts : List Action := [.request endpoint s.sessionToken]
  match attempt w.first with
  | .ok env => (.ok env, s, acts)
  | .error e =>
    if h : (match e with
            | .typed ce => ce.kind == .authentication && strIncludes ce.message "expired"
            | .untyped _ => false)
           && jsTruthy s.refreshToken && retryOnAuth then
      match refreshSessionToken s w.refreshO with
      | (.ok _, s₁) =>
        let (r, s₂, as) :=
          makeRequest endpoint s₁ { first := w.retry, refreshO := w.refreshO, retry := w.retry }
            false
        (r, s₂, acts ++ [.refreshCall] ++ as)
      | (.error re, s₁) => (.error re, s₁, acts ++ [.refreshCall])
    else
      match e with
      | .typed ce => (.error (.typed ce), s, acts)
      | .untyped m =>
        (.error (.typed (NetworkError ERROR_MESSAGES.NETWORK_ERROR (.wrapped m))), s, acts)
termination_by (cond retryOnAuth 1 0)
decreasing_by
  simp only [Bool.and_eq_true] at h
  simp [h.2]

/-! ## Public methods: envelope unwrapping (client lines 183–453)

Each public method calls `makeRequest` and then repeats verbatim the check
`if (!response.success || !response.data) throw new CryptoMomoError(
response.error || <fallback>, '<METHOD_CODE>')`.  The shared shape is
factored into `unwrapResponse` over a per-method `MethodSpec`; the eleven
specs below carry each method's endpoint, error code and fallback message
exactly as written at its call site. -/

/-- One public method's endpoint, envelope-failure error code, and the
fallback message of its `response.error || <fallback>`. -/
structure MethodSpec where
  endpoint : String
  errorCode : String
  fallbackMessage : String
deriving DecidableEq, Repr

/-- Source `requestConnection` (lines 183–205). -/
def requestConnectionSpec : MethodSpec :=
  ⟨ENDPOINTS.CONNECTIONS.REQUEST, "CONNECTION_REQUEST_ERROR", ERROR_MESSAGES.NETWORK_ERROR⟩

/-- Source `registerAccount` (lines 214–238). -/
def registerAccountSpec : MethodSpec :=
  ⟨ENDPOINTS.CONNECTIONS.REGISTER, "REGISTRATION_ERROR", ERROR_MESSAGES.NETWORK_ERROR⟩

/-- Source `verifyOTP` (lines 247–276), envelope step. -/
def verifyOTPSpec : MethodSpec :=
  ⟨ENDPOINTS.CONNECTIONS.VERIFY, "OTP_VERIFICATION_ERROR", ERROR_MESSAGES.INVALID_OTP⟩

/-- Source `getConnectionById` (lines 283–297); the endpoint is
`/connections/:connectionId` with the id substituted, recorded here with its
parameter placeholder. -/
def getConnectionByIdSpec : MethodSpec :=
  ⟨"/connections/:connectionId", "GET_CONNECTION_ERROR", ERROR_MESSAGES.CONNECTION_NOT_FOUND⟩

/-- Source `checkConnectionStatus` (lines 304–321). -/
def checkConnectionStatusSpec : MethodSpec :=
  ⟨ENDPOINTS.CONNECTIONS.CHECK_STATUS, "CHECK_CONNECTION_ERROR", ERROR_MESSAGES.NETWORK_ERROR⟩

/-- Source `sendTransaction` (lines 328–342). -/
def sendTransactionSpec : MethodSpec :=
  ⟨ENDPOINTS.TRANSACTIONS.SEND, "TRANSACTION_ERROR", ERROR_MESSAGES.NETWORK_ERROR⟩

/-- Source `sendGaslessTransaction` (lines 347–361). -/
def sendGaslessTransactionSpec : MethodSpec :=
  ⟨ENDPOINTS.TRANSACTIONS.GASLESS, "GASLESS_TRANSACTION_ERROR", ERROR_MESSAGES.NETWORK_ERROR⟩

/-- Source `confirmTransaction` (lines 366–380). -/
def confirmTransactionSpec : MethodSpec :=
  ⟨ENDPOINTS.TRANSACTIONS.CONFIRM, "CONFIRM_TRANSACTION_ERROR", ERROR_MESSAGES.INVALID_OTP⟩

/-- Source `getTransactionStatus` (lines 385–396). -/
def getTransactionStatusSpec : MethodSpec :=
  ⟨"/transactions/:transactionId/status", "GET_TRANSACTION_STATUS_ERROR",
    ERROR_MESSAGES.NETWORK_ERROR⟩

/-- Source `getTransactionHistory` (lines 401–429), envelope step. -/
def getTransactionHistorySpec : MethodSpec :=
  ⟨ENDPOINTS.TRANSACTIONS.HISTORY, "GET_TRANSACTION_HISTORY_ERROR",
    ERROR_MESSAGES.NETWORK_ERROR⟩

/-- Source `getBalance` (lines 434–453). -/
def getBalanceSpec : MethodSpec :=
  ⟨ENDPOINTS.TRANSACTIONS.BALANCE, "GET_BALANCE_ERROR", ERROR_MESSAGES.NETWORK_ERROR⟩

/-- All eleven public data methods, in source order. -/
def allMethodSpecs : List MethodSpec :=
  [requestConnectionSpec, registerAccountSpec, verifyOTPSpec, getConnectionByIdSpec,
   checkConnectionStatusSpec, sendTransactionSpec, sendGaslessTransactionSpec,
   confirmTransactionSpec, getTransactionStatusSpec, getTransactionHistorySpec,
   getBalanceSpec]

/-- The envelope check every public method performs on `makeRequest`'s
resolved value: `if (!response.success || !response.data) throw new
CryptoMomoError(response.error || <fallback>, '<METHOD_CODE>')`, else
`return response.data`.  (`response.data` is an object or array, truthy
exactly when present.) -/
def unwrapResponse {T : Type} (spec : MethodSpec) (env : ApiResponse T) :
    Except CryptoMomoError T :=
  match env.data with
  | some d =>
    if env.success then .ok d
    else .error (mkCryptoMomoError (jsOr env.error spec.fallbackMessage) spec.errorCode)
  | none => .error (mkCryptoMomoError (jsOr env.error spec.fallbackMessage) spec.errorCode)

/-- A public data method's full run: `makeRequest` (with `retryOnAuth`
defaulted to `true`), then the envelope check.  `verifyOTP` additionally
stores tokens; it is defined separately below on top of this. -/
def runMethod {T : Type} (spec : MethodSpec) (s : ClientState) (w : World T) :
    Except JsError T × ClientState × List Action :=
  match makeRequest spec.endpoint s w true with
  | (.ok env, s₁, as) =>
    match unwrapResponse spec env with
    | .ok d => (.ok d, s₁, as)
    | .error ce => (.error (.typed ce), s₁, as)
  | (.error e, s₁, as) => (.error e, s₁, as)

/-- Source `requestConnection` (lines 183–205): the body `{phoneNumber, metadata}`
travels opaquely to the oracle. -/
def requestConnection (s : ClientState) (w : World ConnectionInfo) :
    Except JsError ConnectionInfo × ClientState × List Action :=
  runMethod requestConnectionSpec s w

/-- Source `sendTransaction` (lines 328–342). -/
def sendTransaction (s : ClientState) (w : World TransactionResponse) :
    Except JsError TransactionResponse × ClientState × List Action :=
  runMethod sendTransactionSpec s w

/-- Source `verifyOTP` (lines 247–276): envelope check via `verifyOTPSpec`, then —
on success — stores `response.data.sessionToken` when truthy (line 266) and
`response.data.refreshToken` when truthy (line 271), and returns
`response.data`. -/
def verifyOTP (s : ClientState) (w : World ConnectionInfo) :
    Except JsError ConnectionInfo × ClientState × List Action :=
  match runMethod verifyOTPSpec s w with
  | (.ok d, s₁, as) =>
    let s₂ := if jsTruthy d.sessionToken then { s₁ with sessionToken := d.sessionToken } else s₁
    let s₃ := if jsTruthy d.refreshToken then { s₂ with refreshToken := d.refreshToken } else s₂
    (.ok d, s₃, as)
  | (.error e, s₁, as) => (.error e, s₁, as)

/-- Source `isUsingSessionToken` (lines 521–523): `!!this.sessionToken`. -/
def isUsingSessionToken (s : ClientState) : Bool := jsTruthy s.sessionToken

/-! ## Transaction-history query construction (client lines 401–429) -/

/-- The optional filter object of `getTransactionHistory`. -/
structure HistoryFilters where
  connectionId : Option String := none
  phoneNumber : Option String := none
  limit : Option Nat := none
  offset : Option Nat := none
  status : Option String := none
deriving DecidableEq, Repr

/-- One byte of a character's UTF-8 encoding list, from the code point. -/
def utf8Bytes (n : Nat) : List Nat :=
  if n < 0x80 then [n]
  else if n < 0x800 then [0xC0 + n / 0x40, 0x80 + n % 0x40]
  else if n < 0x10000 then
    [0xE0 + n / 0x1000, 0x80 + n / 0x40 % 0x40, 0x80 + n % 0x40]
  else
    [0xF0 + n / 0x40000, 0x80 + n / 0x1000 % 0x40, 0x80 + n / 0x40 % 0x40, 0x80 + n % 0x40]

/-- Uppercase hexadecimal digit. -/
def hexDigit (n : Nat) : Char :=
  if n < 10 then Char.ofNat (48 + n) else Char.ofNat (55 + n)

/-- Source `application/x-www-form-urlencoded` serialization of one character, as
`URLSearchParams.toString()` performs it: ASCII alphanumerics and `*-._` kept,
space becomes `+`, everything else percent-encoded byte-wise. -/
def formEncodeChar (c : Char) : String :=
  if c.isAlphanum && c.toNat < 128 then String.singleton c
  else if c == '*' || c == '-' || c == '.' || c == '_' then String.singleton c
  else if c == ' ' then "+"
  else String.join ((utf8Bytes c.toNat).map fun b =>
    String.mk ['%', hexDigit (b / 16), hexDigit (b % 16)])

/-- Source `application/x-www-form-urlencoded` serialization of a string. -/
def formEncode (s : String) : String := String.join (s.toList.map formEncodeChar)

/-- One guarded `if (filters.x) params.append('x', filters.x)` step for a
string field: appends nothing when the value is JS-falsy (`undefined` or
`''`). -/
def appendIfTruthyStr (k : String) (v : Option String) : List (String × String) :=
  match v with
  | some s => if s == "" then [] else [(k, s)]
  | none => []

/-- One guarded `if (filters.x) params.append('x', filters.x.toString())`
step for a numeric field: appends nothing when the value is JS-falsy
(`undefined` or `0`). -/
def appendIfTruthyNum (k : String) (v : Option Nat) : List (String × String) :=
  match v with
  | some n => if n == 0 then [] else [(k, toString n)]
  | none => []

/-- The `URLSearchParams.append` sequence of `getTransactionHistory`
(lines 411–416): each field appended, in source order, only when truthy. -/
def historyParams (f : HistoryFilters) : List (String × String) :=
  appendIfTruthyStr "connectionId" f.connectionId ++
  appendIfTruthyStr "phoneNumber" f.phoneNumber ++
  appendIfTruthyNum "limit" f.limit ++
  appendIfTruthyNum "offset" f.offset ++
  appendIfTruthyStr "status" f.status

/-- Source `URLSearchParams.toString()`: `k=v` pairs joined with `&`, keys and
values form-encoded. -/
def paramsToString (ps : List (String × String)) : String :=
  String.intercalate "&" (ps.map fun kv => formEncode kv.1 ++ "=" ++ formEncode kv.2)

/-- The endpoint string `getTransactionHistory` passes to `makeRequest`
(lines 408–418): the history path, plus `?<params>` when a filter object was
supplied. -/
def getTransactionHistoryEndpoint (filters : Option HistoryFilters) : String :=
  match filters with
  | none => ENDPOINTS.TRANSACTIONS.HISTORY
  | some f => ENDPOINTS.TRANSACTIONS.HISTORY ++ "?" ++ paramsToString (historyParams f)

/-! ## Event-loop model of the single-flight refresh (client lines 49–89)

JavaScript is single-threaded: the synchronous section of
`refreshSessionToken` — the `this.refreshPromise` check of line 51, the
`!this.refreshToken` check of line 55, and (when idle) creating the IIFE's
promise, starting the refresh fetch and storing the promise (lines 59–88) —
runs atomically; only the `await fetch` suspends.  Concurrent callers
(whether they call `refreshSession` directly or arrive via `makeRequest`'s
expiry-retry path) therefore interleave as a sequence of atomic call steps
followed, once the in-flight fetch settles, by the settlement step of the
IIFE's continuation (token assignment, the `finally` clearing the slot, and
resolution of the shared promise).  `GState` is the shared state visible to
all of them. -/

/-- Shared event-loop state: the token slots, the `refreshPromise` slot
holding the pending promise's identifier, the table of already-settled
promises, a fresh-identifier counter, and a count of refresh fetches
started. -/
structure GState where
  sessionToken : Option String := none
  refreshToken : Option String := none
  refreshPromise : Option Nat := none
  promises : List (Nat × Except JsError Unit) := []
  nextId : Nat := 0
  fetchCount : Nat := 0
deriving Repr

/-- What one caller's synchronous section produces: the promise it will
await, or the immediate `AuthenticationError('No refresh token available')`
throw of line 56. -/
inductive CallRes where
  | awaits (pid : Nat)
  | threw (e : JsError)
deriving DecidableEq, Repr

/-- One caller's atomic synchronous section of `refreshSessionToken`
(lines 49–59 and 88): return the in-flight promise if one exists; otherwise
throw when no truthy refresh token is held; otherwise create the promise,
start the refresh fetch, and store the promise in `refreshPromise`. -/
def callStep (g : GState) : GState × CallRes :=
  match g.refreshPromise with
  | some p => (g, .awaits p)
  | none =>
    if jsTruthy g.refreshToken then
      ({ g with refreshPromise := some g.nextId, nextId := g.nextId + 1,
                fetchCount := g.fetchCount + 1 },
       .awaits g.nextId)
    else
      (g, .threw (.typed (AuthenticationError "No refresh token available")))

/-- Source `n` callers' synchronous sections run in sequence (any interleaving of
the atomic sections is such a sequence), collecting each caller's result in
order. -/
def runCalls : Nat → GState → GState × List CallRes
  | 0, g => (g, [])
  | n + 1, g =>
    let (g₁, r) := callStep g
    let (g₂, rs) := runCalls n g₁
    (g₂, r :: rs)

/-- The settlement step of the in-flight refresh (lines 71–85): the IIFE's
continuation maps the fetch outcome through `refreshSettle` (assigning both
tokens only on full success), the `finally` clears `refreshPromise`
unconditionally, and the shared promise settles with the outcome every
awaiting caller receives.  With no refresh in flight there is nothing to
settle. -/
def settleStep (g : GState) (o : RefreshOutcome) : GState :=
  match g.refreshPromise with
  | none => g
  | some p =>
    let (r, sess, refr) := refreshSettle g.sessionToken g.refreshToken o
    { g with sessionToken := sess, refreshToken := refr,
             refreshPromise := none,
             promises := (p, r) :: g.promises }

/-- Header construction (lines 102–112) applied to the shared event-loop
state, for speaking about the requests retried after the refresh settles. -/
def gHeaders (g : GState) (appToken : String) : Headers :=
  buildHeaders { appToken := appToken, sessionToken := g.sessionToken,
                 refreshToken := g.refreshToken } []

/-! ## Result classification -/

/-- Result classification predicate: the settled value of a public async
operation is either a fulfilment or a rejection with one of the SDK's typed
errors — a rejection with an untyped value is what the failure-semantics
contract forbids. -/
def isTypedResult {α : Type} : Except JsError α → Bool
  | .error (.untyped _) => false
  | _ => true

/-- Refresh outcomes in which neither `fetch` nor `response.json()` inside
`refreshSessionToken` throws a raw runtime error (the endpoint may still
respond non-ok or with a bad envelope). -/
def refreshClean : RefreshOutcome → Bool
  | .netFail _ => false
  | .jsonFail _ => false
  | .ok _ => true
  | .httpErr _ => true

/-! ## Concrete fixtures for witnesses and counterexamples -/

/-- Concrete approved connection payload used by witnesses. -/
def approvedConn : ConnectionInfo :=
  { id := "c1", status := "approved", sessionToken := some "sess",
    refreshToken := some "ref" }

/-- Concrete oracle whose first fetch succeeds with `approvedConn`. -/
def approvedWorld : World ConnectionInfo :=
  { first := .ok { success := true, data := some approvedConn },
    refreshO := .httpErr 500,
    retry := .ok { success := false } }

/-- Concrete oracle for witnesses: first fetch hits an expired-session 401,
the refresh succeeds with rotated tokens, the retried fetch fails with a
fresh 401. -/
def expiredWorld : World Unit :=
  { first := .httpErr 401 { errMessage := some "Session expired" },
    refreshO := .ok
      { success := true,
        data := some { sessionToken := some "new", refreshToken := some "ref2" } },
    retry := .httpErr 401 { errMessage := some "bad credentials" } }

/-- Concrete successful refresh envelope with rotated tokens, used by
witnesses. -/
def rotatedEnv : RefreshEnvelope :=
  { success := true,
    data := some { sessionToken := some "newTok", refreshToken := some "newRef" } }

/-! ## Helper lemmas -/

/-- With `retryOnAuth` disabled, `makeRequest` is a single attempt: it issues
exactly one fetch, leaves the state untouched, rethrows a typed error
unchanged and wraps an untyped one into a `NetworkError`. -/
theorem makeRequest_false_spec {T : Type} (endpoint : String) (s : ClientState)
    (w : World T) :
    makeRequest endpoint s w false =
      ((match attempt w.first with
        | .ok env => .ok env
        | .error (.typed ce) => .error (.typed ce)
        | .error (.untyped m) =>
          .error (.typed (NetworkError ERROR_MESSAGES.NETWORK_ERROR (.wrapped m)))),
       s, [.request endpoint s.sessionToken]) := by
  rw [makeRequest]
  rcases h : attempt w.first with e | env
  · rcases e with ce | m <;> simp [h]
  · simp [h]

/-- A sequential refresh run whose fetch and JSON parse do not throw raw
runtime errors settles with a typed result. -/
theorem refreshSessionToken_clean_isTyped (s : ClientState) (o : RefreshOutcome)
    (h : refreshClean o = true) : isTypedResult (refreshSessionToken s o).1 = true := by
  by_cases hrt : jsTruthy s.refreshToken
  · rcases o with env | status | m | m
    · rcases hd : env.data with _ | d
      · simp [refreshSessionToken, hrt, refreshSettle, hd, isTypedResult]
      · by_cases hsucc : env.success <;>
          simp [refreshSessionToken, hrt, refreshSettle, hd, hsucc, isTypedResult]
    · simp [refreshSessionToken, hrt, refreshSettle, isTypedResult]
    · simp [refreshClean] at h
    · simp [refreshClean] at h
  · simp [refreshSessionToken, hrt, isTypedResult]

/-- With `retryOnAuth` disabled, `makeRequest` settles with a typed
result. -/
theorem makeRequest_false_isTyped {T : Type} (endpoint : String) (s : ClientState)
    (w : World T) : isTypedResult (makeRequest endpoint s w false).1 = true := by
  rw [makeRequest_false_spec]
  rcases attempt w.first with e | env
  · rcases e with ce | m <;> simp [isTypedResult]
  · simp [isTypedResult]

/-- Whenever the refresh round trip does not itself throw raw runtime
errors, `makeRequest` settles with a typed result. -/
theorem makeRequest_isTyped {T : Type} (endpoint : String) (s : ClientState)
    (w : World T) (b : Bool) (h : refreshClean w.refreshO = true) :
    isTypedResult (makeRequest endpoint s w b).1 = true := by
  rw [makeRequest]
  rcases hf : attempt w.first with e | env
  · dsimp only
    split
    · rcases hr : refreshSessionToken s w.refreshO with ⟨r, s₁⟩
      have hrt := refreshSessionToken_clean_isTyped s w.refreshO h
      rw [hr] at hrt
      rcases r with re | u
      · dsimp only
        rcases re with ce | m
        · simp [isTypedResult]
        · simp [isTypedResult] at hrt
      · dsimp only
        exact makeRequest_false_isTyped endpoint s₁ _
    · rcases e with ce | m <;> simp [isTypedResult]
  · simp [isTypedResult]

/-- Whenever the refresh round trip does not itself throw raw runtime
errors, a public data method settles with a typed result. -/
theorem runMethod_isTyped {T : Type} (spec : MethodSpec) (s : ClientState)
    (w : World T) (h : refreshClean w.refreshO = true) :
    isTypedResult (runMethod spec s w).1 = true := by
  rcases hm : makeRequest spec.endpoint s w true with ⟨r, s₁, as⟩
  have hr := makeRequest_isTyped spec.endpoint s w true h
  rw [hm] at hr
  rw [runMethod, hm]
  rcases r with e | env
  · dsimp only
    rcases e with ce | m
    · simp [isTypedResult]
    · simp [isTypedResult] at hr
  · dsimp only
    rcases hu : unwrapResponse spec env with ce | d <;> simp [hu, isTypedResult]

/-! ## Claim theorems -/

/-- C8: for every configuration whose app token is missing or empty,
constructing the client throws a `ValidationError` immediately (and, the
constructor consuming no fetch oracle, no HTTP request is attempted); for
every configuration with a non-empty app token, construction succeeds with no
session token and no refresh token held (app-token mode). -/
theorem constructor_validates_appToken (config : CryptoMomoConfig) :
    (jsTruthy config.appToken = false →
      mkClient config = .error (ValidationError
        "App token required: provide appToken from your CryptoMomo dashboard.")) ∧
    (∀ t : String, config.appToken = some t → t ≠ "" →
      mkClient config =
        .ok { appToken := t, baseUrl := resolvedBaseUrl config,
              sessionToken := none, refreshToken := none }) := by
  constructor
  · intro h
    simp [mkClient, h]
  · intro t ht hne
    simp [mkClient, jsTruthy, ht, hne]

/-- Witness for `constructor_validates_appToken`: an empty app token is
rejected with a `ValidationError`, a non-empty one yields a client in
app-token mode. -/
theorem constructor_validates_appToken_witness :
    mkClient { appToken := some "" } = .error (ValidationError
      "App token required: provide appToken from your CryptoMomo dashboard.") ∧
    mkClient { appToken := some "tok" } =
      .ok { appToken := "tok", baseUrl := API_CONFIG.BASE_URL,
            sessionToken := none, refreshToken := none } := by
  constructor
  · exact (constructor_validates_appToken { appToken := some "" }).1 (by decide)
  · have h := (constructor_validates_appToken { appToken := some "tok" }).2 "tok" rfl
      (by decide)
    simpa [resolvedBaseUrl, jsOr] using h

/-- C6: the HTTP-status-to-error mapping of `handleErrorResponse`: 401 yields
an `AuthenticationError`, 400 a `ValidationError`, 403 an
`AuthenticationError` with the IP-not-whitelisted message, 429 a base client
error whose code is `RATE_LIMITED` whatever the body contains, and every
other non-success status a base client error carrying the server-provided
code and message (with the documented fallbacks when the body lacks them). -/
theorem http_status_error_mapping (body : ErrBody) :
    (handleErrorResponse 401 body).kind = .authentication ∧
    (handleErrorResponse 400 body).kind = .validation ∧
    handleErrorResponse 403 body =
      AuthenticationError ERROR_MESSAGES.IP_NOT_WHITELISTED (.body body) ∧
    ((handleErrorResponse 429 body).kind = .generic ∧
      (handleErrorResponse 429 body).code = "RATE_LIMITED") ∧
    (∀ status : Nat, status ∉ ([400, 401, 403, 429] : List Nat) →
      (handleErrorResponse status body).kind = .generic ∧
      (handleErrorResponse status body).statusCode = status ∧
      (handleErrorResponse status body).code = jsOr body.errCode "UNKNOWN_ERROR" ∧
      (handleErrorResponse status body).message =
        jsOr body.errMessage (jsOr body.message ERROR_MESSAGES.NETWORK_ERROR)) := by
  refine ⟨?_, ?_, ?_, ⟨?_, ?_⟩, ?_⟩
  · simp [handleErrorResponse, AuthenticationError]
  · simp [handleErrorResponse, ValidationError]
  · simp [handleErrorResponse]
  · simp [handleErrorResponse, mkCryptoMomoError]
  · simp [handleErrorResponse, mkCryptoMomoError]
  · intro status hstatus
    have h400 : status ≠ 400 := fun hc => hstatus (by simp [hc])
    have h401 : status ≠ 401 := fun hc => hstatus (by simp [hc])
    have h403 : status ≠ 403 := fun hc => hstatus (by simp [hc])
    have h429 : status ≠ 429 := fun hc => hstatus (by simp [hc])
    unfold handleErrorResponse
    split
    · exact absurd rfl h401
    · exact absurd rfl h400
    · exact absurd rfl h403
    · exact absurd rfl h429
    · simp [mkCryptoMomoError]

/-- Witness for `http_status_error_mapping`: a 404 with a server-provided
code and message is mapped to a base client error carrying both. -/
theorem http_status_error_mapping_witness :
    (404 : Nat) ∉ ([400, 401, 403, 429] : List Nat) ∧
    (handleErrorResponse 404 ⟨some "no such tx", some "TX_NOT_FOUND", none⟩).code =
      "TX_NOT_FOUND" ∧
    (handleErrorResponse 404 ⟨some "no such tx", some "TX_NOT_FOUND", none⟩).message =
      "no such tx" := by
  refine ⟨by decide, ?_, ?_⟩
  · have h := (http_status_error_mapping ⟨some "no such tx", some "TX_NOT_FOUND", none⟩).2.2.2.2
      404 (by decide)
    simpa [jsOr] using h.2.2.1
  · have h := (http_status_error_mapping ⟨some "no such tx", some "TX_NOT_FOUND", none⟩).2.2.2.2
      404 (by decide)
    simpa [jsOr] using h.2.2.2

/-- C4: for every request dispatched by the client (every internal call site
passes no caller headers, i.e. `extra = []`), the built headers contain
`Content-Type: application/json`; with a (truthy) session token the
`Authorization` header is `Bearer <token>` and `X-App-Token` is unset; with
no session token `X-App-Token` carries the app token and no bearer header is
set — never both credential headers, and one of the two modes always
active. -/
theorem request_headers_credential_modes (s : ClientState) :
    buildHeaders s [] "Content-Type" = some "application/json" ∧
    (∀ t, s.sessionToken = some t → t ≠ "" →
      buildHeaders s [] AUTH_HEADERS.BEARER = some ("Bearer " ++ t) ∧
      buildHeaders s [] AUTH_HEADERS.APP_TOKEN = none) ∧
    (jsTruthy s.sessionToken = false →
      buildHeaders s [] AUTH_HEADERS.APP_TOKEN = some s.appToken ∧
      buildHeaders s [] AUTH_HEADERS.BEARER = none) := by
  refine ⟨?_, ?_, ?_⟩
  · by_cases h : jsTruthy s.sessionToken <;>
      simp [buildHeaders, applyExtra, AUTH_HEADERS.BEARER, AUTH_HEADERS.APP_TOKEN, h]
  · intro t ht hne
    have htruthy : jsTruthy s.sessionToken = true := by simp [jsTruthy, ht, hne]
    constructor <;>
      simp [buildHeaders, applyExtra, AUTH_HEADERS.BEARER, AUTH_HEADERS.APP_TOKEN, htruthy, ht,
        jsTruthy, hne]
  · intro h
    constructor <;>
      simp [buildHeaders, applyExtra, AUTH_HEADERS.BEARER, AUTH_HEADERS.APP_TOKEN, h]

/-- Witness for `request_headers_credential_modes`: both credential modes at
concrete states. -/
theorem request_headers_credential_modes_witness :
    (buildHeaders { appToken := "app", sessionToken := some "sess" } [] AUTH_HEADERS.BEARER =
        some "Bearer sess" ∧
      buildHeaders { appToken := "app", sessionToken := some "sess" } [] AUTH_HEADERS.APP_TOKEN =
        none) ∧
    (buildHeaders { appToken := "app" } [] AUTH_HEADERS.APP_TOKEN = some "app" ∧
      buildHeaders { appToken := "app" } [] AUTH_HEADERS.BEARER = none) := by
  constructor
  · exact (request_headers_credential_modes
      { appToken := "app", sessionToken := some "sess" }).2.1 "sess" rfl (by decide)
  · exact (request_headers_credential_modes { appToken := "app" }).2.2 (by decide)

/-- Membership of a key among an `appendIfTruthyStr` step's appended keys:
exactly the appended key, and only when the value was truthy. -/
theorem mem_fst_appendIfTruthyStr (k k' : String) (v : Option String) :
    k' ∈ (appendIfTruthyStr k v).map Prod.fst ↔ k' = k ∧ jsTruthy v = true := by
  rcases v with _ | s
  · simp [appendIfTruthyStr, jsTruthy]
  · by_cases hs : s = "" <;> simp [appendIfTruthyStr, jsTruthy, hs]

/-- Membership of a key among an `appendIfTruthyNum` step's appended keys:
exactly the appended key, and only when the value was truthy. -/
theorem mem_fst_appendIfTruthyNum (k k' : String) (v : Option Nat) :
    k' ∈ (appendIfTruthyNum k v).map Prod.fst ↔ k' = k ∧ v ≠ none ∧ v ≠ some 0 := by
  rcases v with _ | n
  · simp [appendIfTruthyNum]
  · by_cases hn : n = 0 <;> simp [appendIfTruthyNum, hn]

/-- C9: `getTransactionHistory` with `{limit: 10, status: 'pending'}` builds
the query string `limit=10&status=pending` exactly, and every filter field
that is not provided (`connectionId`, `phoneNumber`, `limit`, `offset`,
`status`) is omitted entirely from the appended parameters — its key never
occurs — rather than sent empty. -/
theorem getTransactionHistory_query_construction :
    getTransactionHistoryEndpoint (some { limit := some 10, status := some "pending" }) =
      "/transactions/history?limit=10&status=pending" ∧
    (∀ f : HistoryFilters,
      (f.connectionId = none → "connectionId" ∉ (historyParams f).map Prod.fst) ∧
      (f.phoneNumber = none → "phoneNumber" ∉ (historyParams f).map Prod.fst) ∧
      (f.limit = none → "limit" ∉ (historyParams f).map Prod.fst) ∧
      (f.offset = none → "offset" ∉ (historyParams f).map Prod.fst) ∧
      (f.status = none → "status" ∉ (historyParams f).map Prod.fst)) := by
  constructor
  · decide
  · intro f
    refine ⟨fun h => ?_, fun h => ?_, fun h => ?_, fun h => ?_, fun h => ?_⟩ <;>
      · simp only [historyParams, h, List.map_append, List.mem_append,
          mem_fst_appendIfTruthyStr, mem_fst_appendIfTruthyNum, jsTruthy]
        simp

/-- Witness for `getTransactionHistory_query_construction`: with only
`limit`/`status` provided, `offset` is absent from the appended
parameters. -/
theorem getTransactionHistory_query_construction_witness :
    ({ limit := some 10, status := some "pending" } : HistoryFilters).offset = none ∧
    "offset" ∉
      (historyParams { limit := some 10, status := some "pending" }).map Prod.fst := by
  refine ⟨rfl, ?_⟩
  exact (getTransactionHistory_query_construction.2
    { limit := some 10, status := some "pending" }).2.2.2.1 rfl

/-- C7: for every public method, a transport-successful envelope with
`success: true` but no `data` (or with `success: false`) raises a client
error carrying that method's own endpoint-specific code — never the generic
`UNKNOWN_ERROR` or one of the three subclass codes — and `makeRequest` itself
performs no such envelope check: it resolves with the parsed envelope
untouched. -/
theorem envelope_failure_raises_method_code :
    (∀ spec ∈ allMethodSpecs, ∀ (T : Type) (env : ApiResponse T),
      env.success = false ∨ env.data = none →
      unwrapResponse spec env =
        .error (mkCryptoMomoError (jsOr env.error spec.fallbackMessage) spec.errorCode) ∧
      spec.errorCode ≠ "UNKNOWN_ERROR" ∧ spec.errorCode ≠ "VALIDATION_ERROR" ∧
      spec.errorCode ≠ "AUTHENTICATION_ERROR" ∧ spec.errorCode ≠ "NETWORK_ERROR") ∧
    requestConnectionSpec.errorCode = "CONNECTION_REQUEST_ERROR" ∧
    verifyOTPSpec.errorCode = "OTP_VERIFICATION_ERROR" ∧
    (∀ (T : Type) (endpoint : String) (s : ClientState) (w : World T)
      (env : ApiResponse T) (retryOnAuth : Bool), w.first = .ok env →
      makeRequest endpoint s w retryOnAuth =
        (.ok env, s, [.request endpoint s.sessionToken])) := by
  refine ⟨?_, rfl, rfl, ?_⟩
  · intro spec hspec T env henv
    have hunwrap : unwrapResponse spec env =
        .error (mkCryptoMomoError (jsOr env.error spec.fallbackMessage) spec.errorCode) := by
      rcases henv with hsucc | hdata
      · rcases hd : env.data with _ | d <;> simp [unwrapResponse, hd, hsucc]
      · simp [unwrapResponse, hdata]
    refine ⟨hunwrap, ?_⟩
    fin_cases hspec <;> refine ⟨by decide, by decide, by decide, by decide⟩
  · intro T endpoint s w env retryOnAuth hfirst
    rw [makeRequest]
    simp [attempt, hfirst]

/-- Witness for `envelope_failure_raises_method_code`: a `success: true`
envelope with no `data`, passed through `requestConnection`'s envelope check,
raises the `CONNECTION_REQUEST_ERROR` code, while `makeRequest` resolved it
untouched. -/
theorem envelope_failure_raises_method_code_witness :
    unwrapResponse requestConnectionSpec
        ({ success := true, data := none } : ApiResponse ConnectionInfo) =
      .error (mkCryptoMomoError ERROR_MESSAGES.NETWORK_ERROR "CONNECTION_REQUEST_ERROR") ∧
    makeRequest ENDPOINTS.CONNECTIONS.REQUEST { appToken := "app" }
        ({ first := .ok { success := true, data := none },
           refreshO := .httpErr 500, retry := .ok { success := true, data := none } } :
          World ConnectionInfo) true =
      (.ok { success := true, data := none }, { appToken := "app" },
        [.request ENDPOINTS.CONNECTIONS.REQUEST none]) := by
  constructor
  · have h := (envelope_failure_raises_method_code.1 requestConnectionSpec
      (by simp [allMethodSpecs]) ConnectionInfo { success := true, data := none }
      (Or.inr rfl)).1
    simpa [requestConnectionSpec, jsOr] using h
  · exact envelope_failure_raises_method_code.2.2.2 ConnectionInfo
      ENDPOINTS.CONNECTIONS.REQUEST { appToken := "app" } _ _ true rfl

/-- C5: after a successful `verifyOTP` call (transport ok, `success: true`,
`data` present), the returned value is the updated Connection regardless of
whether tokens were present; when the response data carries a (non-empty)
session token it is stored — `isUsingSessionToken()` then answers true and
subsequent requests carry the bearer header, not the app-token header — and
when it carries a (non-empty) refresh token that is stored too. -/
theorem verifyOTP_stores_tokens (s : ClientState) (w : World ConnectionInfo)
    (env : ApiResponse ConnectionInfo) (d : ConnectionInfo)
    (hfirst : w.first = .ok env) (hsucc : env.success = true)
    (hdata : env.data = some d) :
    (verifyOTP s w).1 = .ok d ∧
    (∀ t, d.sessionToken = some t → t ≠ "" →
      ((verifyOTP s w).2.1).sessionToken = some t ∧
      isUsingSessionToken (verifyOTP s w).2.1 = true ∧
      buildHeaders (verifyOTP s w).2.1 [] AUTH_HEADERS.BEARER = some ("Bearer " ++ t) ∧
      buildHeaders (verifyOTP s w).2.1 [] AUTH_HEADERS.APP_TOKEN = none) ∧
    (∀ t, d.refreshToken = some t → t ≠ "" →
      ((verifyOTP s w).2.1).refreshToken = some t) := by
  have hmr : makeRequest verifyOTPSpec.endpoint s w true =
      (.ok env, s, [.request verifyOTPSpec.endpoint s.sessionToken]) := by
    rw [makeRequest]
    simp [attempt, hfirst]
  have hunwrap : unwrapResponse verifyOTPSpec env = .ok d := by
    simp [unwrapResponse, hdata, hsucc]
  rw [verifyOTP, runMethod, hmr]
  dsimp only
  rw [hunwrap]
  dsimp only
  refine ⟨rfl, ?_, ?_⟩
  · intro t ht hne
    have hjt : jsTruthy (some t) = true := by simp [jsTruthy, hne]
    by_cases h2 : jsTruthy d.refreshToken <;>
      simp [h2, ht, hjt, isUsingSessionToken, buildHeaders, applyExtra,
        AUTH_HEADERS.BEARER, AUTH_HEADERS.APP_TOKEN]
  · intro t ht hne
    have hjt : jsTruthy (some t) = true := by simp [jsTruthy, hne]
    by_cases h1 : jsTruthy d.sessionToken <;> simp [h1, ht, hjt]

/-- Witness for `verifyOTP_stores_tokens`: a concrete approved connection
with both tokens; the client transitions into session mode with the bearer
header active. -/
theorem verifyOTP_stores_tokens_witness :
    (verifyOTP { appToken := "app" } approvedWorld).1 = .ok approvedConn ∧
    ((verifyOTP { appToken := "app" } approvedWorld).2.1).sessionToken = some "sess" ∧
    isUsingSessionToken (verifyOTP { appToken := "app" } approvedWorld).2.1 = true ∧
    buildHeaders (verifyOTP { appToken := "app" } approvedWorld).2.1 []
      AUTH_HEADERS.BEARER = some "Bearer sess" ∧
    ((verifyOTP { appToken := "app" } approvedWorld).2.1).refreshToken = some "ref" := by
  obtain ⟨h1, h2, h3⟩ := verifyOTP_stores_tokens { appToken := "app" } approvedWorld
    { success := true, data := some approvedConn } approvedConn rfl rfl rfl
  obtain ⟨h4, h5, h6, _⟩ := h2 "sess" rfl (by decide)
  exact ⟨h1, h4, h5, h6, h3 "ref" rfl (by decide)⟩

/-- C10: a failed refresh attempt — the refresh endpoint answering non-ok, or
an envelope without `success: true` and `data` — makes `refreshSessionToken`
throw an `AuthenticationError` and leaves the stored session and refresh
tokens exactly as they were (both are assigned only by the fully successful
branch), while the settlement step of the event-loop model still clears the
pending-refresh handle whatever the outcome, so a later call starts a fresh
refresh (a new fetch is counted). -/
theorem failed_refresh_preserves_tokens :
    (∀ (s : ClientState), jsTruthy s.refreshToken = true →
      (∀ status, refreshSessionToken s (.httpErr status) =
        (.error (.typed (AuthenticationError "Failed to refresh session")), s)) ∧
      (∀ env : RefreshEnvelope, env.success = false ∨ env.data = none →
        refreshSessionToken s (.ok env) =
          (.error (.typed (AuthenticationError "Invalid refresh response")), s))) ∧
    (∀ (g : GState) (o : RefreshOutcome), (settleStep g o).refreshPromise = none) ∧
    (∀ (g : GState) (o : RefreshOutcome) (p : Nat), g.refreshPromise = some p →
      ((∃ status, o = .httpErr status) ∨
        (∃ env, o = .ok env ∧ (env.success = false ∨ env.data = none)) →
        (settleStep g o).sessionToken = g.sessionToken ∧
        (settleStep g o).refreshToken = g.refreshToken) ∧
      (jsTruthy (settleStep g o).refreshToken = true →
        (callStep (settleStep g o)).1.fetchCount = (settleStep g o).fetchCount + 1)) := by
  refine ⟨?_, ?_, ?_⟩
  · intro s hs
    constructor
    · intro status
      simp [refreshSessionToken, hs, refreshSettle]
    · intro env henv
      rcases henv with hsucc | hdata
      · rcases hd : env.data with _ | d <;>
          simp [refreshSessionToken, hs, refreshSettle, hd, hsucc]
      · simp [refreshSessionToken, hs, refreshSettle, hdata]
  · intro g o
    rcases hp : g.refreshPromise with _ | p <;> simp [settleStep, hp]
  · intro g o p hp
    constructor
    · intro hfail
      rcases hfail with ⟨status, ho⟩ | ⟨env, ho, henv⟩
      · simp [settleStep, hp, ho, refreshSettle]
      · rcases henv with hsucc | hdata
        · rcases hd : env.data with _ | d <;>
            simp [settleStep, hp, ho, refreshSettle, hd, hsucc]
        · simp [settleStep, hp, ho, refreshSettle, hdata]
    · intro htruthy
      have hcleared : (settleStep g o).refreshPromise = none := by
        simp [settleStep, hp]
      simp [callStep, hcleared, htruthy]

/-- Witness for `failed_refresh_preserves_tokens`: a concrete client holding
both tokens, hit by a 500 from the refresh endpoint, keeps both tokens; a
concrete settled event-loop state has its handle cleared and a subsequent
call starts a new fetch. -/
theorem failed_refresh_preserves_tokens_witness :
    refreshSessionToken
        { appToken := "app", sessionToken := some "sess", refreshToken := some "ref" }
        (.httpErr 500) =
      (.error (.typed (AuthenticationError "Failed to refresh session")),
       { appToken := "app", sessionToken := some "sess", refreshToken := some "ref" }) ∧
    (settleStep { refreshToken := some "ref", refreshPromise := some 0, fetchCount := 1 }
        (.httpErr 500)).refreshPromise = none ∧
    (settleStep { refreshToken := some "ref", refreshPromise := some 0, fetchCount := 1 }
        (.httpErr 500)).sessionToken = none ∧
    (callStep (settleStep
        { refreshToken := some "ref", refreshPromise := some 0, fetchCount := 1 }
        (.httpErr 500))).1.fetchCount =
      (settleStep { refreshToken := some "ref", refreshPromise := some 0, fetchCount := 1 }
        (.httpErr 500)).fetchCount + 1 := by
  obtain ⟨hseq, hclear, hsettle⟩ := failed_refresh_preserves_tokens
  refine ⟨(hseq
      { appToken := "app", sessionToken := some "sess", refreshToken := some "ref" }
      (by decide)).1 500, hclear _ _, ?_, ?_⟩
  · exact ((hsettle { refreshToken := some "ref", refreshPromise := some 0, fetchCount := 1 }
      (.httpErr 500) 0 rfl).1 (Or.inl ⟨500, rfl⟩)).1
  · exact (hsettle { refreshToken := some "ref", refreshPromise := some 0, fetchCount := 1 }
      (.httpErr 500) 0 rfl).2 (by simp [settleStep, refreshSettle, jsTruthy])

/-- C3: when the first attempt raises an `AuthenticationError` whose message
contains `expired`, a (truthy) refresh token is held and this is a first
attempt (`retryOnAuth` still set), `makeRequest` performs exactly one refresh
followed by exactly one retry of the original call with `retryOnAuth`
disabled (the dispatched actions are the original request, one refresh round
trip, and one retried request — nothing more); with `retryOnAuth` disabled a
failing attempt propagates with a single fetch and no refresh; and with no
refresh token held the original `AuthenticationError` propagates directly
with only the original fetch dispatched. -/
theorem retry_on_expiry_contract {T : Type} (endpoint : String) (s : ClientState)
    (w : World T) (ce : CryptoMomoError)
    (hfirst : attempt w.first = .error (.typed ce))
    (hkind : ce.kind = .authentication)
    (hexp : strIncludes ce.message "expired" = true) :
    (∀ s₁, jsTruthy s.refreshToken = true →
      refreshSessionToken s w.refreshO = (.ok (), s₁) →
      makeRequest endpoint s w true =
        ((makeRequest endpoint s₁ ⟨w.retry, w.refreshO, w.retry⟩ false).1,
         (makeRequest endpoint s₁ ⟨w.retry, w.refreshO, w.retry⟩ false).2.1,
         [.request endpoint s.sessionToken, .refreshCall,
          .request endpoint s₁.sessionToken])) ∧
    (∀ (s' : ClientState) (w' : World T),
      (makeRequest endpoint s' w' false).2.2 = [.request endpoint s'.sessionToken] ∧
      (∀ ce₂, attempt w'.first = .error (.typed ce₂) →
        (makeRequest endpoint s' w' false).1 = .error (.typed ce₂))) ∧
    (jsTruthy s.refreshToken = false →
      makeRequest endpoint s w true =
        (.error (.typed ce), s, [.request endpoint s.sessionToken])) := by
  refine ⟨?_, ?_, ?_⟩
  · intro s₁ hrt hrefresh
    rw [makeRequest, hfirst]
    simp only [hkind, hexp, hrt, beq_self_eq_true, Bool.and_self, Bool.and_true, dite_true]
    rw [hrefresh]
    dsimp only
    rw [makeRequest_false_spec endpoint s₁ ⟨w.retry, w.refreshO, w.retry⟩]
    simp [makeRequest_false_spec]
  · intro s' w'
    constructor
    · rw [makeRequest_false_spec endpoint s' w']
    · intro ce₂ h₂
      rw [makeRequest_false_spec endpoint s' w', h₂]
  · intro hrt
    rw [makeRequest, hfirst]
    simp [hrt]

/-- Witness for `retry_on_expiry_contract`: a concrete expired-session 401
followed by a successful refresh and a failing retried call — the failure
propagates after exactly one refresh and one retry. -/
theorem retry_on_expiry_contract_witness :
    makeRequest "/transactions/send"
        { appToken := "app", sessionToken := some "old", refreshToken := some "ref" }
        expiredWorld true =
      (.error (.typed (AuthenticationError "bad credentials"
          (.body { errMessage := some "bad credentials" }))),
       { appToken := "app", sessionToken := some "new", refreshToken := some "ref2" },
       [.request "/transactions/send" (some "old"), .refreshCall,
        .request "/transactions/send" (some "new")]) ∧
    makeRequest "/transactions/send"
        { appToken := "app", sessionToken := some "old" }
        expiredWorld true =
      (.error (.typed (AuthenticationError "Session expired"
          (.body { errMessage := some "Session expired" }))),
       { appToken := "app", sessionToken := some "old" },
       [.request "/transactions/send" (some "old")]) := by
  have hfirst : attempt (T := Unit) expiredWorld.first =
      .error (.typed (AuthenticationError "Session expired"
        (.body { errMessage := some "Session expired" }))) := by
    simp [expiredWorld, attempt, handleErrorResponse, jsOr, AuthenticationError]
  have hmain := retry_on_expiry_contract (T := Unit) "/transactions/send"
    { appToken := "app", sessionToken := some "old", refreshToken := some "ref" }
    expiredWorld _ hfirst rfl (by decide)
  have hnorf := retry_on_expiry_contract (T := Unit) "/transactions/send"
    { appToken := "app", sessionToken := some "old" }
    expiredWorld _ hfirst rfl (by decide)
  constructor
  · have hrefresh : refreshSessionToken
        { appToken := "app", sessionToken := some "old", refreshToken := some "ref" }
        expiredWorld.refreshO =
        (.ok (),
         { appToken := "app", sessionToken := some "new", refreshToken := some "ref2" }) := by
      simp [expiredWorld, refreshSessionToken, jsTruthy, refreshSettle]
    have h := hmain.1
      { appToken := "app", sessionToken := some "new", refreshToken := some "ref2" }
      (by decide) hrefresh
    rw [h]
    rw [makeRequest_false_spec]
    simp [expiredWorld, attempt, handleErrorResponse, jsOr, AuthenticationError]
  · exact hnorf.2.2 (by decide)

/-- C2 (amended): every public async operation either resolves with its
typed payload or rejects with one of the four typed error kinds, EXCEPT that
a raw runtime error thrown by the refresh round trip itself (a transport
failure or JSON-parse failure inside `refreshSessionToken`, which has no
catch-all of its own) propagates to the caller unwrapped.  Stated over the
shared public data-method runner, `verifyOTP`, and the public
`refreshSession`, under the hypothesis that the refresh round trip throws no
raw runtime error. -/
theorem public_ops_reject_typed :
    (∀ (T : Type) (spec : MethodSpec) (s : ClientState) (w : World T),
      refreshClean w.refreshO = true → isTypedResult (runMethod spec s w).1 = true) ∧
    (∀ (s : ClientState) (w : World ConnectionInfo),
      refreshClean w.refreshO = true → isTypedResult (verifyOTP s w).1 = true) ∧
    (∀ (s : ClientState) (o : RefreshOutcome),
      refreshClean o = true → isTypedResult (refreshSession s o).1 = true) := by
  refine ⟨fun T spec s w h => runMethod_isTyped spec s w h, ?_, ?_⟩
  · intro s w h
    rcases hm : runMethod verifyOTPSpec s w with ⟨r, s₁, as⟩
    have hr := runMethod_isTyped verifyOTPSpec s w h
    rw [hm] at hr
    rcases r with e | d
    · simpa [verifyOTP, hm] using hr
    · simp [verifyOTP, hm, isTypedResult]
  · intro s o h
    exact refreshSessionToken_clean_isTyped s o h

/-- Witness for `public_ops_reject_typed`: a clean-refresh world in which the
envelope check fails — `sendTransaction` rejects with a typed error — and a
non-ok refresh response, on which `refreshSession` rejects typed. -/
theorem public_ops_reject_typed_witness :
    refreshClean (RefreshOutcome.httpErr 500) = true ∧
    isTypedResult (runMethod sendTransactionSpec { appToken := "app" }
      ({ first := .ok { success := false }, refreshO := .httpErr 500,
         retry := .ok { success := false } } : World TransactionResponse)).1 = true ∧
    isTypedResult (refreshSession { appToken := "app", refreshToken := some "ref" }
      (.httpErr 500)).1 = true := by
  refine ⟨rfl, ?_, ?_⟩
  · exact public_ops_reject_typed.1 TransactionResponse sendTransactionSpec
      { appToken := "app" } _ rfl
  · exact public_ops_reject_typed.2.2 { appToken := "app", refreshToken := some "ref" }
      (.httpErr 500) rfl

/-- Counterexample to C2 as stated: the public `refreshSession` rejects with
the raw untyped error (`TypeError: Failed to fetch`) when the refresh fetch
itself throws, and the public `sendTransaction` — whose expiry-retry path
awaits the refresh from inside its catch block — likewise rejects with that
untyped value rather than one of the four typed kinds. -/
theorem public_ops_reject_typed_counterexample :
    (refreshSession
        { appToken := "app", sessionToken := some "sess", refreshToken := some "ref" }
        (.netFail "Failed to fetch")).1 =
      .error (.untyped "Failed to fetch") ∧
    (sendTransaction
        { appToken := "app", sessionToken := some "sess", refreshToken := some "ref" }
        { first := .httpErr 401 { errMessage := some "Session expired" },
          refreshO := .netFail "Failed to fetch",
          retry := .ok { success := true, data := some { id := "t1" } } }).1 =
      .error (.untyped "Failed to fetch") := by
  constructor
  · simp [refreshSession, refreshSessionToken, jsTruthy, refreshSettle]
  · simp [sendTransaction, runMethod, makeRequest, sendTransactionSpec, attempt,
      handleErrorResponse, jsOr, jsTruthy, strIncludes, charsIncludes, charsPrefix,
      refreshSessionToken, refreshSettle, AuthenticationError]

/-- Callers whose synchronous section runs while a refresh is in flight all
attach to the pending promise and change nothing: no new fetch, no state
change. -/
theorem runCalls_inflight (n : Nat) (g : GState) (p : Nat)
    (h : g.refreshPromise = some p) :
    runCalls n g = (g, List.replicate n (.awaits p)) := by
  induction n with
  | zero => simp [runCalls]
  | succ k ih => simp [runCalls, callStep, h, ih, List.replicate_succ]

/-- C1: for `n + 1` concurrent callers of the refresh path interleaving in
any order from an idle state holding a refresh token — the first creates the
pending refresh, the rest arrive while it is in flight — every caller awaits
the same single pending promise, exactly one refresh fetch is started in
total, the shared promise settles once with the success every awaiting
caller receives, and after settlement the single new session token is
installed, so every request retried afterwards carries it in its bearer
header. -/
theorem single_flight_refresh (n : Nat) (g : GState) (rt : String)
    (appToken : String) (env : RefreshEnvelope) (d : RefreshData) (newTok : String)
    (hidle : g.refreshPromise = none) (hrt : g.refreshToken = some rt) (hne : rt ≠ "")
    (hsucc : env.success = true) (hdata : env.data = some d)
    (htok : d.sessionToken = some newTok) (hne2 : newTok ≠ "") :
    (settleStep (runCalls (n + 1) g).1 (.ok env)).fetchCount = g.fetchCount + 1 ∧
    (runCalls (n + 1) g).2 = List.replicate (n + 1) (.awaits g.nextId) ∧
    (settleStep (runCalls (n + 1) g).1 (.ok env)).promises =
      (g.nextId, Except.ok ()) :: g.promises ∧
    (settleStep (runCalls (n + 1) g).1 (.ok env)).sessionToken = some newTok ∧
    (settleStep (runCalls (n + 1) g).1 (.ok env)).refreshPromise = none ∧
    gHeaders (settleStep (runCalls (n + 1) g).1 (.ok env)) appToken
      AUTH_HEADERS.BEARER = some ("Bearer " ++ newTok) ∧
    gHeaders (settleStep (runCalls (n + 1) g).1 (.ok env)) appToken
      AUTH_HEADERS.APP_TOKEN = none := by
  have hcall : callStep g =
      ({ g with refreshPromise := some g.nextId, nextId := g.nextId + 1,
                fetchCount := g.fetchCount + 1 }, .awaits g.nextId) := by
    simp [callStep, hidle, hrt, jsTruthy, hne]
  have hrun : runCalls (n + 1) g =
      ({ g with refreshPromise := some g.nextId, nextId := g.nextId + 1,
                fetchCount := g.fetchCount + 1 },
       List.replicate (n + 1) (.awaits g.nextId)) := by
    rw [runCalls, hcall]
    dsimp only
    rw [runCalls_inflight n
      { g with refreshPromise := some g.nextId, nextId := g.nextId + 1,
               fetchCount := g.fetchCount + 1 } g.nextId rfl]
    simp [List.replicate_succ]
  have hsettle : settleStep (runCalls (n + 1) g).1 (.ok env) =
      { g with sessionToken := d.sessionToken, refreshToken := d.refreshToken,
               refreshPromise := none, promises := (g.nextId, Except.ok ()) :: g.promises,
               nextId := g.nextId + 1, fetchCount := g.fetchCount + 1 } := by
    rw [hrun]
    simp [settleStep, refreshSettle, hsucc, hdata]
  refine ⟨?_, ?_, ?_, ?_, ?_, ?_, ?_⟩
  · rw [hsettle]
  · rw [hrun]
  · rw [hsettle]
  · rw [hsettle]
    exact htok
  · rw [hsettle]
  · rw [hsettle]
    simp [gHeaders, buildHeaders, applyExtra, AUTH_HEADERS.BEARER, htok, jsTruthy, hne2]
  · rw [hsettle]
    simp [gHeaders, buildHeaders, applyExtra, AUTH_HEADERS.BEARER, AUTH_HEADERS.APP_TOKEN,
      htok, jsTruthy, hne2]

/-- Witness for `single_flight_refresh`: three concurrent callers, one
successful refresh fetch, all sharing promise 0; the rotated session token is
installed and the post-settlement bearer header carries it. -/
theorem single_flight_refresh_witness :
    (settleStep (runCalls 3 { refreshToken := some "ref" }).1 (.ok rotatedEnv)).fetchCount =
      1 ∧
    (runCalls 3 { refreshToken := some "ref" }).2 = List.replicate 3 (.awaits 0) ∧
    (settleStep (runCalls 3 { refreshToken := some "ref" }).1 (.ok rotatedEnv)).promises =
      [(0, Except.ok ())] ∧
    (settleStep (runCalls 3 { refreshToken := some "ref" }).1
        (.ok rotatedEnv)).sessionToken = some "newTok" ∧
    gHeaders (settleStep (runCalls 3 { refreshToken := some "ref" }).1 (.ok rotatedEnv))
      "app" AUTH_HEADERS.BEARER = some "Bearer newTok" := by
  obtain ⟨h1, h2, h3, h4, _, h6, _⟩ := single_flight_refresh 2 { refreshToken := some "ref" }
    "ref" "app" rotatedEnv { sessionToken := some "newTok", refreshToken := some "newRef" }
    "newTok" rfl rfl (by decide) rfl rfl rfl (by decide)
  exact ⟨h1, h2, h3, h4, h6⟩

end CryptoMomo
